import Mathlib

/-!
Verification of the acquisition-orchestration layer of
`NanoVNASaverHeadless` (file `src/NanoVNASaverHeadless.py`) against its
natural-language specification.  Python lists become Lean lists, Python
integers become `Int`/`Nat`, measurement samples are modelled
structurally (their numeric type plays no role in the verified
properties), fallible operations return `Except`/`Option`, and printed
diagnostics plus instrument interaction are recorded as explicit effect
lists.  Modules of the repository that are imported by
`NanoVNASaverHeadless.py` but are not part of the given sources
(`Hardware`, `Calibration`, `CalibrationGuide`, `Touchstone`,
`SweepWorker`) are modelled from the specification where a claim needs
them; each such definition says so in its doc comment.
-/

/-- Python-level runtime errors that the embedding distinguishes,
together with the spec's error taxonomy names that the claims mention. -/
inductive PyError
  | typeError
  | sourceUnavailable
  | attributeError
deriving DecidableEq

/-- One measured point: the `Datapoint` records stored by the sweep
worker in its `data11`/`data21` lists, with fields `freq`, `re`, `im`.
The numeric sample type is modelled structurally by `Int`. -/
structure Datapoint where
  freq : Int
  re : Int
  im : Int
deriving DecidableEq

/-- The sweep worker's published data slots: `worker.data11` (S11) and
`worker.data21` (S21), read by `_get_data`. -/
structure SweepData where
  data11 : List Datapoint
  data21 : List Datapoint
deriving DecidableEq

/-- The five-list result tuple returned by `_get_data`, in source order:
`(refl_re, refl_im, thru_re, thru_im, freq)`. -/
structure SweepResult where
  reflRe : List Int
  reflIm : List Int
  thruRe : List Int
  thruIm : List Int
  freq : List Int
deriving DecidableEq

/-- Embeds `_get_data` (NanoVNASaverHeadless.py lines 176-196): the
first loop walks `data11` appending `re`, `im` and `freq`, the second
walks `data21` appending `re` and `im`; appending element-wise over a
list is its `map`. -/
def get_data (w : SweepData) : SweepResult :=
  { reflRe := w.data11.map Datapoint.re
    reflIm := w.data11.map Datapoint.im
    thruRe := w.data21.map Datapoint.re
    thruIm := w.data21.map Datapoint.im
    freq := w.data11.map Datapoint.freq }

/-- The sweep configuration owned by the Sweep Producer
(`worker.sweep`). -/
structure SweepConfig where
  start : Int
  stop : Int
  segments : Int
  points : Int
deriving DecidableEq

/-- The spec's recoverable configuration error. -/
inductive ConfigError
  | invalidConfig
deriving DecidableEq

/-- Modelled from the spec: `worker.sweep.update` lives in the
`SweepWorker` module, which is not under `src/`.  Per spec §4.1,
`configureSweep` "fails with `InvalidConfig` if any bound is
non-positive or `start > stop`; otherwise replaces the Sweep Producer's
configuration", and per §3 `segments` and `pointsPerSegment` are
integers `≥ 1`. -/
def sweepUpdate (st sp seg pts : Int) : Except ConfigError SweepConfig :=
  if st ≤ 0 ∨ sp ≤ 0 ∨ st > sp ∨ seg < 1 ∨ pts < 1 then
    Except.error ConfigError.invalidConfig
  else
    Except.ok { start := st, stop := sp, segments := seg, points := pts }

/-- Embeds the live path of `set_sweep` (lines 65-86): it delegates to
`worker.sweep.update`.  The returned pair is (outcome, configuration
after the call), so a failed update leaves the previous configuration in
place and a successful one installs the new one. -/
def set_sweep_live (cfg : SweepConfig) (st sp seg pts : Int) :
    Except ConfigError SweepConfig × SweepConfig :=
  match sweepUpdate st sp seg pts with
  | Except.error e => (Except.error e, cfg)
  | Except.ok c => (Except.ok c, c)

/-- Modelled from the spec: `SweepWorker.run` is not under `src/`.  Per
spec §8 property 1 and §3, a completed single-mode sweep leaves `data11`
and `data21` each holding `segments × pointsPerSegment` datapoints. -/
def workerProducesFullSweep (cfg : SweepConfig) (w : SweepData) : Prop :=
  (w.data11.length : Int) = cfg.segments * cfg.points ∧
  (w.data21.length : Int) = cfg.segments * cfg.points

/-- Embeds the tail of `single_sweep` (lines 88-94): after the worker
has run one single-mode sweep, the returned value is `_get_data()`. -/
def single_sweep_live (w : SweepData) : SweepResult :=
  get_data w

/-- Number of `automaticCalibrationStep` calls made by the `while`
loop of `calibrate` (lines 58-60), given the boolean returned by
`automaticCalibration` and the successive booleans returned by the step
calls: `proceed = start(); while proceed: proceed = step()`. -/
def guideStepCalls : Bool → List Bool → Nat
  | false, _ => 0
  | true, [] => 0
  | true, r :: rs => 1 + guideStepCalls r rs

/-- Call counts observed by the calibration guide during one run of the
driving loop in `calibrate`. -/
structure GuideCalls where
  startCalls : Nat
  stepCalls : Nat
deriving DecidableEq

/-- Embeds the driving loop of `calibrate` (lines 45-63, fresh-run
path): `automaticCalibration` is called exactly once, then
`automaticCalibrationStep` is called while the previous answer was
`true`. -/
def calibrate_loop (startResult : Bool) (stepResults : List Bool) : GuideCalls :=
  { startCalls := 1, stepCalls := guideStepCalls startResult stepResults }

/-- State of the background worker thread started by `_stream_data`:
the shared `worker.running` flag, whether the thread is still alive, and
whether `worker_thread.join()` has completed. -/
structure WorkerState where
  running : Bool
  threadAlive : Bool
  joined : Bool
deriving DecidableEq

/-- The ways a consumer can stop iterating the generator returned by
`stream_data`: normal exhaustion, an early `break`, an exception in the
consumer's loop body, or an explicit `close()` of the generator. -/
inductive StreamExit
  | exhausted
  | earlyBreak
  | consumerError
  | explicitClose
deriving DecidableEq

/-- Embeds `_stop_worker` (lines 168-174): outside playback mode it
clears `worker.running` and joins the worker thread.  That the join
terminates with the thread no longer alive is modelled from the spec:
`SweepWorker.run` is not under `src/`, and per spec §5 "the background
context checks the running flag between sweep passes", so after the flag
is cleared the run loop returns and `join()` completes. -/
def stop_worker (playback_mode : Bool) (s : WorkerState) : WorkerState :=
  if playback_mode then s
  else { running := false, threadAlive := false, joined := true }

/-- Embeds `_stream_data` (lines 123-128): sets continuous mode and
starts the worker thread (the worker's run loop sets `running`). -/
def stream_data_live_start (s : WorkerState) : WorkerState :=
  { s with running := true, threadAlive := true }

/-- Embeds the lifecycle of one `stream_data()` call on a Live source
(lines 96-121): `_stream_data` starts the worker thread, then whichever
way the iteration ends — exhaustion, early break (`GeneratorExit` is not
an `Exception`, so it passes the `except` clause), a consumer exception
(the generator is closed during unwinding), or an explicit close — the
`finally` clause runs `_stop_worker()` before control leaves the
generator. -/
def stream_data_live_final (e : StreamExit) (s : WorkerState) : WorkerState :=
  match e with
  | StreamExit.exhausted => stop_worker false (stream_data_live_start s)
  | StreamExit.earlyBreak => stop_worker false (stream_data_live_start s)
  | StreamExit.consumerError => stop_worker false (stream_data_live_start s)
  | StreamExit.explicitClose => stop_worker false (stream_data_live_start s)

theorem guideStepCalls_replicate (k : Nat) (rest : List Bool) :
    guideStepCalls true (List.replicate k true ++ false :: rest) = k + 1 := by
  induction k with
  | zero => simp [guideStepCalls]
  | succ n ih =>
    rw [List.replicate_succ, List.cons_append]
    simp only [guideStepCalls, ih]
    omega

/-- Claim C8: the calibration driving loop calls `start()` once, then
calls `step()` while the previous answer reported "continue", stopping
at the first `false`; for a guide whose `start()` returns `true` and
whose `step()` returns `true` exactly 3 times and then `false`, it
performs exactly 1 `start()` call and 4 `step()` calls. -/
theorem spec_C8 :
    calibrate_loop true (List.replicate 3 true ++ [false]) = { startCalls := 1, stepCalls := 4 } ∧
    ∀ (k : Nat) (rest : List Bool),
      calibrate_loop true (List.replicate k true ++ false :: rest) =
        { startCalls := 1, stepCalls := k + 1 } := by
  constructor
  · decide
  · intro k rest
    simp [calibrate_loop, guideStepCalls_replicate k rest]

/-- Claim C3: `set_sweep` on the live path fails with `InvalidConfig`
and keeps the previous configuration whenever a bound is non-positive,
`start > stop`, or `segments`/`points` are below 1; on every valid
configuration it installs the new configuration without error. -/
theorem spec_C3 (cfg : SweepConfig) (st sp seg pts : Int) :
    ((st ≤ 0 ∨ sp ≤ 0 ∨ st > sp ∨ seg < 1 ∨ pts < 1) →
      set_sweep_live cfg st sp seg pts = (Except.error ConfigError.invalidConfig, cfg)) ∧
    (¬(st ≤ 0 ∨ sp ≤ 0 ∨ st > sp ∨ seg < 1 ∨ pts < 1) →
      set_sweep_live cfg st sp seg pts =
        (Except.ok { start := st, stop := sp, segments := seg, points := pts },
         { start := st, stop := sp, segments := seg, points := pts })) := by
  constructor
  · intro h
    simp [set_sweep_live, sweepUpdate, if_pos h]
  · intro h
    simp [set_sweep_live, sweepUpdate, if_neg h]

/-- Witness for C3: a concrete invalid call (start = 0) is rejected and
keeps the old configuration; a concrete valid call installs the new
configuration. -/
theorem spec_C3_witness :
    set_sweep_live { start := 1, stop := 2, segments := 1, points := 101 } 0 5 1 101 =
      (Except.error ConfigError.invalidConfig,
       { start := 1, stop := 2, segments := 1, points := 101 }) ∧
    set_sweep_live { start := 1, stop := 2, segments := 1, points := 101 } 1 3 2 51 =
      (Except.ok { start := 1, stop := 3, segments := 2, points := 51 },
       { start := 1, stop := 3, segments := 2, points := 51 }) :=
  ⟨(spec_C3 { start := 1, stop := 2, segments := 1, points := 101 } 0 5 1 101).1 (by decide),
   (spec_C3 { start := 1, stop := 2, segments := 1, points := 101 } 1 3 2 51).2 (by decide)⟩

/-- Claim C4: for every valid sweep configuration installed by
`set_sweep`, `single_sweep` returns a `SweepResult` whose five lists all
have the same length, equal to `segments × points`. -/
theorem spec_C4 (st sp seg pts : Int) (cfg : SweepConfig) (w : SweepData)
    (hcfg : sweepUpdate st sp seg pts = Except.ok cfg)
    (hw : workerProducesFullSweep cfg w) :
    (single_sweep_live w).reflRe.length = (single_sweep_live w).reflIm.length ∧
    (single_sweep_live w).reflIm.length = (single_sweep_live w).thruRe.length ∧
    (single_sweep_live w).thruRe.length = (single_sweep_live w).thruIm.length ∧
    (single_sweep_live w).thruIm.length = (single_sweep_live w).freq.length ∧
    ((single_sweep_live w).reflRe.length : Int) = cfg.segments * cfg.points := by
  obtain ⟨h11, h21⟩ := hw
  have hlen : w.data11.length = w.data21.length := by
    exact_mod_cast h11.trans h21.symm
  refine ⟨?_, ?_, ?_, ?_, ?_⟩
  · simp [single_sweep_live, get_data]
  · simp [single_sweep_live, get_data, hlen]
  · simp [single_sweep_live, get_data]
  · simp [single_sweep_live, get_data, hlen]
  · simpa [single_sweep_live, get_data] using h11

/-- Witness for C4: a concrete valid configuration (1 segment × 2
points) and a worker state holding 2 datapoints per channel give five
lists of length 2. -/
theorem spec_C4_witness :
    (single_sweep_live
        { data11 := [{ freq := 1, re := 2, im := 3 }, { freq := 2, re := 4, im := 5 }],
          data21 := [{ freq := 1, re := 6, im := 7 }, { freq := 2, re := 8, im := 9 }] }).reflRe.length =
      (single_sweep_live
        { data11 := [{ freq := 1, re := 2, im := 3 }, { freq := 2, re := 4, im := 5 }],
          data21 := [{ freq := 1, re := 6, im := 7 }, { freq := 2, re := 8, im := 9 }] }).reflIm.length ∧
    ((single_sweep_live
        { data11 := [{ freq := 1, re := 2, im := 3 }, { freq := 2, re := 4, im := 5 }],
          data21 := [{ freq := 1, re := 6, im := 7 }, { freq := 2, re := 8, im := 9 }] }).reflRe.length : Int) =
      (1 : Int) * 2 := by
  have h := spec_C4 1 2 1 2 { start := 1, stop := 2, segments := 1, points := 2 }
    { data11 := [{ freq := 1, re := 2, im := 3 }, { freq := 2, re := 4, im := 5 }],
      data21 := [{ freq := 1, re := 6, im := 7 }, { freq := 2, re := 8, im := 9 }] }
    (by rfl) (by constructor <;> decide)
  exact ⟨h.1, h.2.2.2.2⟩

/-- Claim C1: however the consumer of a Live `stream_data()` call stops
iterating — exhaustion, early break, consumer exception, or explicit
close — the `finally` clause runs `_stop_worker`, which clears the
shared running flag and joins the worker thread, so no background
execution context outlives the call. -/
theorem spec_C1 (e : StreamExit) (s : WorkerState) :
    (stream_data_live_final e s).threadAlive = false ∧
    (stream_data_live_final e s).running = false ∧
    (stream_data_live_final e s).joined = true := by
  cases e <;> simp [stream_data_live_final, stop_worker, stream_data_live_start]

/-- Embeds `_access_data` (lines 158-166): while `worker.running`, it
yields `_get_data()`.  `polls` is the list of worker-data snapshots read
on the successive loop iterations; every snapshot is forwarded to the
consumer with no comparison against the previous one. -/
def access_data (polls : List SweepData) : List SweepResult :=
  polls.map get_data

/-- `true` when a list contains the same element twice in a row. -/
def hasAdjacentDup : List SweepResult → Bool
  | [] => false
  | [_] => false
  | a :: b :: rest => if a = b then true else hasAdjacentDup (b :: rest)

/-- Embeds the acceptance gate of the `save_csv` loop (lines 318-328):
`old_data` starts as `None`; a fetched `new_data` is processed only when
`new_data != old_data`, and then becomes the new `old_data`.  The result
is the subsequence of stream values that `save_csv` actually
processes. -/
def save_csv_acceptedSeq : Option SweepResult → List SweepResult → List SweepResult
  | _, [] => []
  | old, d :: ds =>
    if some d ≠ old then d :: save_csv_acceptedSeq (some d) ds
    else save_csv_acceptedSeq old ds

theorem save_csv_acceptedSeq_head (old : Option SweepResult)
    (stream : List SweepResult) (b : SweepResult) (t : List SweepResult)
    (h : save_csv_acceptedSeq old stream = b :: t) : some b ≠ old := by
  induction stream generalizing old with
  | nil => simp [save_csv_acceptedSeq] at h
  | cons d ds ih =>
    by_cases hd : some d ≠ old
    · rw [save_csv_acceptedSeq, if_pos hd] at h
      cases h
      exact hd
    · rw [save_csv_acceptedSeq, if_neg hd] at h
      exact ih old h

theorem save_csv_acceptedSeq_noDup (stream : List SweepResult) (old : Option SweepResult) :
    hasAdjacentDup (save_csv_acceptedSeq old stream) = false := by
  induction stream generalizing old with
  | nil => rfl
  | cons d ds ih =>
    by_cases hd : some d ≠ old
    · rw [save_csv_acceptedSeq, if_pos hd]
      cases hr : save_csv_acceptedSeq (some d) ds with
      | nil => rfl
      | cons b t =>
        have hb : b ≠ d := by
          have := save_csv_acceptedSeq_head (some d) ds b t hr
          intro he
          exact this (by rw [he])
        rw [hasAdjacentDup, if_neg (fun he => hb he.symm), ← hr]
        exact ih (some d)
    · rw [save_csv_acceptedSeq, if_neg hd]
      exact ih old

/-- A concrete worker-data snapshot used in the C2 counterexample. -/
def pollSample : SweepData :=
  { data11 := [{ freq := 1, re := 2, im := 3 }],
    data21 := [{ freq := 1, re := 4, im := 5 }] }

/-- Counterexample for C2 as claimed: if two successive polls of
`_access_data` observe the same published `SweepResult` value (the
producer republished an identical result, or simply has not published a
new one yet), the consumer-visible stream emits that identical value
twice in a row — there is no value-equality filter on the live path. -/
theorem spec_C2_counterexample :
    hasAdjacentDup (access_data [pollSample, pollSample]) = true := by
  decide

/-- Claim C2, amended: the live stream returned by `stream_data`
forwards every polled result unfiltered (one output per poll), and the
only value-equality duplicate suppression in the program is the
`new_data != old_data` gate inside `save_csv`, whose accepted
subsequence never contains the same `SweepResult` value twice in a
row. -/
theorem spec_C2 :
    (∀ polls : List SweepData, (access_data polls).length = polls.length) ∧
    ∀ (old : Option SweepResult) (stream : List SweepResult),
      hasAdjacentDup (save_csv_acceptedSeq old stream) = false := by
  constructor
  · intro polls
    simp [access_data]
  · intro old stream
    exact save_csv_acceptedSeq_noDup stream old

/-- Observable side effects of the headless session's methods: printed
messages and interactions with the instrument handle or its worker. -/
inductive Effect
  | printMsg (msg : String)
  | instrument (op : String)
deriving DecidableEq

/-- A headless session: `playback_mode` is set by the constructor, and
`iface` records the interface picked from `hw.get_interfaces()`. -/
structure Session where
  playback_mode : Bool
  iface : Option Nat
deriving DecidableEq

/-- Embeds `__init__` (lines 14-43): `hw.get_interfaces()[vna_index]`
raises `IndexError` exactly when the index is out of range; the
constructor catches it, prints a notice and enters playback mode instead
of propagating the error.  (The live branch additionally builds the
worker and guide from modules not under `src/`; no claim depends on
their construction.) -/
def mkSession (interfaces : List Nat) (vna_index : Nat) : Session :=
  match interfaces.get? vna_index with
  | some i => { playback_mode := false, iface := some i }
  | none => { playback_mode := true, iface := none }

/-- Embeds the playback guard of `calibrate` (lines 52-54): in playback
mode it prints and returns `None` without touching the guide or the
instrument; otherwise it proceeds with the live body, whose outcome
(implemented by modules not under `src/`) is the parameter `live`. -/
def calibrate_op (s : Session) (live : Except PyError (Option Unit) × List Effect) :
    Except PyError (Option Unit) × List Effect :=
  if s.playback_mode then
    (Except.ok none,
     [Effect.printMsg "Cannot calibrate in playback mode. Connect NanoVNA and restart."])
  else live

/-- Embeds the playback guard of `set_sweep` (lines 74-76). -/
def set_sweep_op (s : Session) (live : Except PyError (Option Unit) × List Effect) :
    Except PyError (Option Unit) × List Effect :=
  if s.playback_mode then
    (Except.ok none,
     [Effect.printMsg "Cannot set sweep in playback mode. Connect NanoVNA and restart."])
  else live

/-- Embeds the playback guard of `single_sweep` (lines 89-91). -/
def single_sweep_op (s : Session) (live : Except PyError (Option Unit) × List Effect) :
    Except PyError (Option Unit) × List Effect :=
  if s.playback_mode then
    (Except.ok none,
     [Effect.printMsg "Cannot do a sweep in playback mode. Connect NanoVNA and restart."])
  else live

/-- Embeds the playback guard of `save_csv` (lines 300-302). -/
def save_csv_op (s : Session) (live : Except PyError (Option Unit) × List Effect) :
    Except PyError (Option Unit) × List Effect :=
  if s.playback_mode then
    (Except.ok none,
     [Effect.printMsg "Cannot run sweeps in playback mode. Connect NanoVNA and restart."])
  else live

/-- Embeds the playback guard of `kill` (lines 340-342). -/
def kill_op (s : Session) (live : Except PyError (Option Unit) × List Effect) :
    Except PyError (Option Unit) × List Effect :=
  if s.playback_mode then
    (Except.ok none,
     [Effect.printMsg "Cannot kill in playback mode. Connect NanoVNA and restart."])
  else live

/-- `true` when an effect list touches the instrument handle or its
worker. -/
def touchesInstrument (l : List Effect) : Bool :=
  l.any fun e =>
    match e with
    | Effect.instrument _ => true
    | Effect.printMsg _ => false

/-- Claim C9: when no interface exists at the requested index the
constructor enters playback mode instead of raising, and in playback
mode `calibrate`, `set_sweep`, `single_sweep`, `save_csv` and `kill`
each return `None` without raising and without touching the instrument,
whatever their live branches would have done. -/
theorem spec_C9 (interfaces : List Nat) (vna_index : Nat)
    (live1 live2 live3 live4 live5 : Except PyError (Option Unit) × List Effect)
    (h : interfaces.length ≤ vna_index) :
    (mkSession interfaces vna_index).playback_mode = true ∧
    ((calibrate_op (mkSession interfaces vna_index) live1).1 = Except.ok none ∧
      touchesInstrument (calibrate_op (mkSession interfaces vna_index) live1).2 = false) ∧
    ((set_sweep_op (mkSession interfaces vna_index) live2).1 = Except.ok none ∧
      touchesInstrument (set_sweep_op (mkSession interfaces vna_index) live2).2 = false) ∧
    ((single_sweep_op (mkSession interfaces vna_index) live3).1 = Except.ok none ∧
      touchesInstrument (single_sweep_op (mkSession interfaces vna_index) live3).2 = false) ∧
    ((save_csv_op (mkSession interfaces vna_index) live4).1 = Except.ok none ∧
      touchesInstrument (save_csv_op (mkSession interfaces vna_index) live4).2 = false) ∧
    ((kill_op (mkSession interfaces vna_index) live5).1 = Except.ok none ∧
      touchesInstrument (kill_op (mkSession interfaces vna_index) live5).2 = false) := by
  have hpb : mkSession interfaces vna_index = { playback_mode := true, iface := none } := by
    rw [mkSession, List.get?_eq_none.mpr h]
  rw [hpb]
  refine ⟨rfl, ?_, ?_, ?_, ?_, ?_⟩ <;>
    simp [calibrate_op, set_sweep_op, single_sweep_op, save_csv_op, kill_op,
      touchesInstrument]

/-- Witness for C9: with no interfaces connected and index 0, the
session is in playback mode and `calibrate` returns `None` touching
nothing, even if its live branch would have touched the instrument. -/
theorem spec_C9_witness :
    (mkSession [] 0).playback_mode = true ∧
    (calibrate_op (mkSession [] 0) (Except.ok (some ()), [Effect.instrument "sweep"])).1 =
      Except.ok none :=
  ⟨(spec_C9 [] 0 (Except.ok (some ()), [Effect.instrument "sweep"])
      (Except.ok none, []) (Except.ok none, []) (Except.ok none, [])
      (Except.ok none, []) (by decide)).1,
   ((spec_C9 [] 0 (Except.ok (some ()), [Effect.instrument "sweep"])
      (Except.ok none, []) (Except.ok none, []) (Except.ok none, [])
      (Except.ok none, []) (by decide)).2.1).1⟩

/-- Models `line.replace("\n", "")` in `_csv_streamer` (line 148):
removing every occurrence of the one-character pattern is filtering the
newline character out of the line. -/
def stripNewline (line : String) : String :=
  String.mk (line.data.filter fun c => c != Char.ofNat 10)

/-- Models Python's `line.split(", ")`: scan left to right, cutting at
each non-overlapping occurrence of the two-character separator. -/
def splitCommaSpaceAux : List Char → List Char → List (List Char)
  | [], acc => [acc.reverse]
  | ',' :: ' ' :: rest, acc => acc.reverse :: splitCommaSpaceAux rest []
  | c :: rest, acc => splitCommaSpaceAux rest (c :: acc)

/-- `split(", ")` on a string, as used by `_csv_streamer` (line 148). -/
def splitCommaSpace (s : String) : List String :=
  (splitCommaSpaceAux s.data []).map String.mk

/-- Models the comprehension `[float(x) for x in tokens]`: each token is
parsed in order and the first failure aborts the whole line.  The float
parser itself is a parameter `pf`; the verified properties are
structural and hold for any token parser. -/
def parseTokens {α : Type} (pf : String → Option α) : List String → Option (List α)
  | [] => some []
  | t :: ts =>
    match pf t, parseTokens pf ts with
    | some v, some vs => some (v :: vs)
    | _, _ => none

/-- Embeds line parsing in `_csv_streamer` (line 148):
`[float(x) for x in line.replace("\n", "").split(", ")]`. -/
def parseLine {α : Type} (pf : String → Option α) (line : String) : Option (List α) :=
  parseTokens pf (splitCommaSpace (stripNewline line))

/-- Embeds the body of the loop in `_csv_streamer` (lines 143-154) over
the data lines (the header already skipped): each parsed line is
appended to `package` and `counter` is incremented; when `counter`
reaches `dataPoints` the package is yielded and both reset.  A parse
failure raises, which the surrounding `except` turns into the end of the
stream, so nothing after the failing line is yielded. -/
def csvBody {α : Type} (pf : String → Option α) (dataPoints : Nat) :
    List (List α) → Nat → List String → List (List (List α))
  | _, _, [] => []
  | package, counter, line :: rest =>
    match parseLine pf line with
    | none => []
    | some row =>
      if counter + 1 = dataPoints then
        (package ++ [row]) :: csvBody pf dataPoints [] 0 rest
      else
        csvBody pf dataPoints (package ++ [row]) (counter + 1) rest

/-- Embeds `_csv_streamer` (lines 130-156): `none` models an unreadable
file (the `open` call raises, the `except` clause prints the error and
the generator ends having yielded nothing); otherwise the first line
(`i == 0`) is skipped and the rest are grouped by `dataPoints`. -/
def csv_streamer {α : Type} (pf : String → Option α) (dataPoints : Nat) :
    Option (List String) → List (List (List α))
  | none => []
  | some [] => []
  | some (_header :: rest) => csvBody pf dataPoints [] 0 rest

/-- Embeds the recorded-source path of `stream_data` (lines 96-121).
The records the consumer receives are exactly those of `_csv_streamer`,
which catches and prints every file or parse error instead of raising.
After the last record the generator body ends and the `finally` clause
(line 121) runs `_stop_worker`, outside the protection of the `except`
clause: in playback mode `_stop_worker` returns at its guard, and in a
non-playback session whose `worker_thread` attribute was assigned by a
prior live stream (line 127) the `join()` of the finished thread
returns; but in a non-playback session with no prior live stream,
`self.worker_thread.join()` (line 174) raises `AttributeError`, which
escapes the generator to the consumer.  The result is (records yielded,
terminal error if the stream ends by raising rather than by
`StopIteration`). -/
def stream_data_recorded {α : Type} (pf : String → Option α)
    (playback_mode worker_thread_assigned : Bool) (file : Option (List String)) :
    List (List (List α)) × Option PyError :=
  (csv_streamer pf 5 file,
   if playback_mode = false ∧ worker_thread_assigned = false then
     some PyError.attributeError
   else none)

/-- One data row of the recording format: the comma-space-separated
serialization of its values (spec §6: "each row a comma-space-separated
list of floating-point tokens"). -/
def writeRow {α : Type} (ser : α → String) (row : List α) : String :=
  String.intercalate ", " (row.map ser)

/-- The recording format (spec §6): one header row, then the rows of
each sweep in order. -/
def writeRecording {α : Type} (ser : α → String) (header : String)
    (sweeps : List (List (List α))) : List String :=
  header :: (sweeps.map fun s => s.map (writeRow ser)).flatten

/-- Embeds the replay loop of `plot` (lines 223-243): `run` starts
`True`; each iteration opens `stream_data(data_file)` afresh structurally
consuming every record it yields, and with a data file and `loop=True`
the assignment `run = data_file and loop` keeps `run` true, so after `n`
iterations the records consumed are `n` copies of the file's records. -/
def plotLoopProcessed {β : Type} (records : List β) : Nat → List β
  | 0 => []
  | n + 1 => records ++ plotLoopProcessed records n

/-- A concrete recorded file holding a header line and exactly one
sweep of five single-value rows. -/
def oneSweepFile : List String :=
  ["ReflRe, ReflIm, ThruRe, ThruIm, Freq", "1", "2", "3", "4", "5"]

/-- The decimal digit value of a character, if it is a digit. -/
def digitVal (c : Char) : Option Nat :=
  if 48 ≤ c.toNat ∧ c.toNat ≤ 57 then some (c.toNat - 48) else none

/-- A concrete token parser for witnesses: a non-empty all-digit token
parses as the decimal number it spells, anything else fails (standing in
for Python's `float`, whose numeric semantics no claim depends on). -/
def parseNatTok (s : String) : Option Nat :=
  match s.data with
  | [] => none
  | cs =>
    cs.foldl (fun acc c =>
      match acc, digitVal c with
      | some n, some d => some (10 * n + d)
      | _, _ => none) (some 0)

theorem csv_streamer_cons {α : Type} (pf : String → Option α) (n : Nat)
    (hdr : String) (rest : List String) :
    csv_streamer pf n (some (hdr :: rest)) = csvBody pf n [] 0 rest := rfl

theorem csvBody_cons_none {α : Type} (pf : String → Option α) (n : Nat)
    (acc : List (List α)) (c : Nat) (line : String) (rest : List String)
    (h : parseLine pf line = none) :
    csvBody pf n acc c (line :: rest) = [] := by
  simp [csvBody, h]

theorem csvBody_cons_some {α : Type} (pf : String → Option α) (n : Nat)
    (acc : List (List α)) (c : Nat) (line : String) (rest : List String)
    (row : List α) (h : parseLine pf line = some row) :
    csvBody pf n acc c (line :: rest) =
      if c + 1 = n then (acc ++ [row]) :: csvBody pf n [] 0 rest
      else csvBody pf n (acc ++ [row]) (c + 1) rest := by
  simp [csvBody, h]

theorem csvBody_short {α : Type} (pf : String → Option α) (n : Nat)
    (acc : List (List α)) (c : Nat) (lines : List String)
    (h : c + lines.length < n) :
    csvBody pf n acc c lines = [] := by
  induction lines generalizing acc c with
  | nil => rfl
  | cons line rest ih =>
    cases hp : parseLine pf line with
    | none => rw [csvBody_cons_none pf n acc c line rest hp]
    | some row =>
      have hne : ¬(c + 1 = n) := by
        simp only [List.length_cons] at h
        omega
      rw [csvBody_cons_some pf n acc c line rest row hp, if_neg hne]
      exact ih _ _ (by simp only [List.length_cons] at h; omega)

theorem csvBody_group {α : Type} (pf : String → Option α) (ser : α → String) (n : Nat)
    (pending : List (List α)) (acc : List (List α)) (c : Nat) (rest : List String)
    (hne : pending ≠ [])
    (hc : c = acc.length)
    (hlen : c + pending.length = n)
    (hp : ∀ row ∈ pending, parseLine pf (writeRow ser row) = some row) :
    csvBody pf n acc c (pending.map (writeRow ser) ++ rest) =
      (acc ++ pending) :: csvBody pf n [] 0 rest := by
  induction pending generalizing acc c with
  | nil => exact absurd rfl hne
  | cons row tl ih =>
    rw [List.map_cons, List.cons_append,
      csvBody_cons_some pf n acc c (writeRow ser row) (tl.map (writeRow ser) ++ rest) row
        (hp row (List.mem_cons_self row tl))]
    cases tl with
    | nil =>
      have h1 : c + 1 = n := by simpa using hlen
      rw [if_pos h1]
      simp
    | cons r2 t2 =>
      have h1 : ¬(c + 1 = n) := by
        simp only [List.length_cons] at hlen
        omega
      rw [if_neg h1]
      rw [ih (acc ++ [row]) (c + 1) (by simp) (by simp [hc])
        (by simp only [List.length_cons] at hlen ⊢; omega)
        (fun q hq => hp q (List.mem_cons_of_mem row hq))]
      simp

theorem csvBody_recording {α : Type} (pf : String → Option α) (ser : α → String)
    (sweeps : List (List (List α))) (extra : List String)
    (h5 : ∀ s ∈ sweeps, s.length = 5)
    (hrt : ∀ s ∈ sweeps, ∀ row ∈ s, parseLine pf (writeRow ser row) = some row)
    (hextra : csvBody pf 5 [] 0 extra = []) :
    csvBody pf 5 [] 0 ((sweeps.map fun s => s.map (writeRow ser)).flatten ++ extra) = sweeps := by
  induction sweeps with
  | nil => simpa using hextra
  | cons s tl ih =>
    rw [List.map_cons, List.flatten_cons, List.append_assoc]
    have hs5 : s.length = 5 := h5 s (List.mem_cons_self s tl)
    have hne : s ≠ [] := by
      intro hnil
      rw [hnil] at hs5
      simp at hs5
    rw [csvBody_group pf ser 5 s [] 0 ((tl.map fun q => q.map (writeRow ser)).flatten ++ extra)
      hne rfl (by simpa using hs5)
      (fun row hrow => hrt s (List.mem_cons_self s tl) row hrow)]
    rw [List.nil_append,
      ih (fun x hx => h5 x (List.mem_cons_of_mem s hx))
        (fun x hx => hrt x (List.mem_cons_of_mem s hx))]

/-- Claim C6: reading back a file written in the recorded CSV format —
one header row, then 5 data rows per sweep whose tokens parse back to
the values they serialize — yields exactly the K source sweeps, each
structurally equal; any trailing partial group of fewer than 5 data
lines is discarded, not yielded. -/
theorem spec_C6 {α : Type} (pf : String → Option α) (ser : α → String) (header : String)
    (sweeps : List (List (List α))) (extra : List String)
    (h5 : ∀ s ∈ sweeps, s.length = 5)
    (hrt : ∀ s ∈ sweeps, ∀ row ∈ s, parseLine pf (writeRow ser row) = some row)
    (hextra : extra.length < 5) :
    csv_streamer pf 5 (some (writeRecording ser header sweeps ++ extra)) = sweeps := by
  rw [writeRecording, List.cons_append, csv_streamer_cons]
  exact csvBody_recording pf ser sweeps extra h5 hrt
    (csvBody_short pf 5 [] 0 extra (by omega))

/-- Witness for C6: one concrete sweep of five single-token rows plus a
one-line trailing partial group reads back as exactly that sweep. -/
theorem spec_C6_witness :
    csv_streamer parseNatTok 5
      (some (writeRecording (fun n => toString n) "hdr" [[[1], [2], [3], [4], [5]]] ++ ["9"])) =
      [[[1], [2], [3], [4], [5]]] :=
  spec_C6 parseNatTok (fun n => toString n) "hdr" [[[1], [2], [3], [4], [5]]] ["9"]
    (by decide) (by decide) (by decide)

/-- Counterexample for C5 as claimed: opening a stream on an unreadable
recorded-file path never fails with `SourceUnavailable`: `_csv_streamer`
catches the `open` failure and prints it, so the stream yields nothing;
in a playback session it then simply terminates, and in a non-playback
session with no prior live stream the error that does escape at first
pull is the `finally` clause's `AttributeError` (`worker_thread` unset),
not `SourceUnavailable`. -/
theorem spec_C5_counterexample :
    stream_data_recorded parseNatTok true false none =
      (([] : List (List (List Nat))), none) ∧
    stream_data_recorded parseNatTok false false none =
      (([] : List (List (List Nat))), some PyError.attributeError) ∧
    (stream_data_recorded parseNatTok true false none).2 ≠ some PyError.sourceUnavailable ∧
    (stream_data_recorded parseNatTok false false none).2 ≠ some PyError.sourceUnavailable := by
  refine ⟨rfl, rfl, ?_, ?_⟩ <;> decide

/-- Claim C5, amended: opening a stream on an unreadable recorded-file
path never fails with `SourceUnavailable`: the open failure is caught
and printed inside the reader and the stream yields no records; it then
either terminates normally (playback session, or non-playback session
with a prior live stream) or ends with the `finally` clause's
`AttributeError` from `_stop_worker` (non-playback session,
`worker_thread` never assigned).  Mid-stream parse failures never
propagate the raw parse error: a recording of K good sweeps followed by
a malformed line yields exactly the K sweeps, after which the stream
ends with the same session-dependent finalization as any other
stream. -/
theorem spec_C5 {α : Type} (pf : String → Option α) (ser : α → String) (header : String)
    (sweeps : List (List (List α))) (bad : String) (junk : List String)
    (pb wta : Bool)
    (h5 : ∀ s ∈ sweeps, s.length = 5)
    (hrt : ∀ s ∈ sweeps, ∀ row ∈ s, parseLine pf (writeRow ser row) = some row)
    (hbad : parseLine pf bad = none) :
    stream_data_recorded pf pb wta (some (writeRecording ser header sweeps ++ (bad :: junk))) =
      (sweeps,
       if pb = false ∧ wta = false then some PyError.attributeError else none) ∧
    stream_data_recorded pf pb wta none =
      ([],
       if pb = false ∧ wta = false then some PyError.attributeError else none) ∧
    (stream_data_recorded pf pb wta none).2 ≠ some PyError.sourceUnavailable := by
  refine ⟨?_, rfl, ?_⟩
  · unfold stream_data_recorded
    rw [writeRecording, List.cons_append, csv_streamer_cons,
      csvBody_recording pf ser sweeps (bad :: junk) h5 hrt
        (csvBody_cons_none pf 5 [] 0 bad junk hbad)]
  · unfold stream_data_recorded
    by_cases h : pb = false ∧ wta = false <;> simp [h]

/-- Witness for C5 (amended): in a non-playback session that already
ran a live stream, one good sweep followed by the unparsable line "x"
and one more line yields exactly the good sweep and then ends without
error, and the unreadable-file stream never ends in
`SourceUnavailable`. -/
theorem spec_C5_witness :
    stream_data_recorded parseNatTok false true
      (some (writeRecording (fun n => toString n) "hdr" [[[1], [2], [3], [4], [5]]] ++
        ("x" :: ["7"]))) =
      ([[[1], [2], [3], [4], [5]]],
       if false = false ∧ true = false then some PyError.attributeError else none) ∧
    (stream_data_recorded parseNatTok false true
      (none : Option (List String))).2 ≠ some PyError.sourceUnavailable :=
  ⟨(spec_C5 parseNatTok (fun n => toString n) "hdr" [[[1], [2], [3], [4], [5]]] "x" ["7"]
      false true (by decide) (by decide) (by decide)).1,
   (spec_C5 parseNatTok (fun n => toString n) "hdr" [[[1], [2], [3], [4], [5]]] "x" ["7"]
      false true (by decide) (by decide) (by decide)).2.2⟩

/-- Counterexample for C7 as claimed: `stream_data`/`_csv_streamer`
accept no loop option, and one open of a stream on a recorded file
holding exactly one sweep yields that sweep exactly once and then ends —
a bounded sequence, not an unbounded one; the reader never reopens the
file. -/
theorem spec_C7_counterexample :
    csv_streamer parseNatTok 5 (some oneSweepFile) = [[[1], [2], [3], [4], [5]]] := by
  decide

/-- Claim C7, amended: looping over a recorded file is provided not by
the reader but by `plot(animate=True, data_file, loop=True)`, whose
`while run` loop re-calls `stream_data(data_file)` after each
exhaustion (re-opening the file); across `n` iterations the consumer
processes exactly `n` copies of the single recorded sweep. -/
theorem spec_C7 {α : Type} (pf : String → Option α) (file : List String)
    (sweep : List (List α)) (n : Nat)
    (h : csv_streamer pf 5 (some file) = [sweep]) :
    plotLoopProcessed (csv_streamer pf 5 (some file)) n = List.replicate n sweep := by
  rw [h]
  induction n with
  | zero => rfl
  | succ m ih =>
    rw [plotLoopProcessed, ih, List.replicate_succ, List.singleton_append]

/-- Witness for C7 (amended): three iterations of the plot replay loop
over the one-sweep file process three copies of the sweep. -/
theorem spec_C7_witness :
    plotLoopProcessed (csv_streamer parseNatTok 5 (some oneSweepFile)) 3 =
      List.replicate 3 [[1], [2], [3], [4], [5]] :=
  spec_C7 parseNatTok oneSweepFile [[1], [2], [3], [4], [5]] 3 (by decide)

/-- A dynamically-typed positional argument of a Python call site. -/
inductive PyVal
  | str (s : String)
  | row (r : List Int)
deriving DecidableEq

/-- Models the csv module's `writer.writerow` calling contract (the csv
module is an external collaborator): it takes exactly one positional
argument, the row; a call with any other number of positional arguments
raises `TypeError` before anything is written. -/
def writerow_call (args : List PyVal) : Except PyError Unit :=
  if args.length = 1 then Except.ok () else Except.error PyError.typeError

/-- The five separate positional arguments passed to `writer.writerow`
by `save_csv` (line 317):
`writer.writerow("ReflRe", " ReflIm", " ThruRe", " ThruIm", " Freq")`. -/
def save_csv_header_args : List PyVal :=
  [PyVal.str "ReflRe", PyVal.str " ReflIm", PyVal.str " ThruRe",
   PyVal.str " ThruIm", PyVal.str " Freq"]

/-- Embeds the data loop of `save_csv` (lines 318-328): `old_data`
starts as `None` and `counter` at 0; each stream value unequal to
`old_data` is accepted, and while `skip_start < counter <
skip_start + nr_sweeps` its five component lists are written as rows;
`counter` advances only on accepted values. -/
def save_csv_dataRows (skip_start nr_sweeps : Nat) :
    Option SweepResult → Nat → List SweepResult → List (List Int)
  | _, _, [] => []
  | old, counter, d :: ds =>
    if some d ≠ old then
      (if skip_start < counter ∧ counter < skip_start + nr_sweeps then
        [d.reflRe, d.reflIm, d.thruRe, d.thruIm, d.freq]
      else []) ++ save_csv_dataRows skip_start nr_sweeps (some d) (counter + 1) ds
    else save_csv_dataRows skip_start nr_sweeps old counter ds

/-- Embeds the `try` body of `save_csv` (lines 303-330) on the live
path with a string filename: write the header row, then stream sweeps
and write data rows.  The result is the list of data rows written, or
the error that aborted the body. -/
def save_csv_body (stream : List SweepResult) (nr_sweeps skip_start : Nat) :
    Except PyError (List (List Int)) :=
  match writerow_call save_csv_header_args with
  | Except.error e => Except.error e
  | Except.ok _ => Except.ok (save_csv_dataRows skip_start nr_sweeps none 0 stream)

/-- Embeds `save_csv` (lines 289-332) on the live path with a string
filename: the surrounding `except Exception` catches whatever the body
raises and prints it, and the function returns `None` either way.  The
pair returned is (data rows written, returned value). -/
def save_csv_live (stream : List SweepResult) (nr_sweeps skip_start : Nat) :
    List (List Int) × Option Unit :=
  match save_csv_body stream nr_sweeps skip_start with
  | Except.error _ => ([], none)
  | Except.ok rows => (rows, none)

/-- Claim C10: for every live session, stream and parameters, the
header `writerow` call of `save_csv` passes five positional arguments
and raises `TypeError` before any data is streamed, the handler catches
it, and `save_csv` writes no data rows and returns `None`. -/
theorem spec_C10 (stream : List SweepResult) (nr_sweeps skip_start : Nat) :
    save_csv_body stream nr_sweeps skip_start = Except.error PyError.typeError ∧
    save_csv_live stream nr_sweeps skip_start = ([], none) := by
  constructor
  · rfl
  · rfl
